import Mathlib

/-!
Verification of the ICP scoring engine of `src/icp/scoring.py`
(`ICPScorer`): the ICP-definition parser, the weighted lead-fit scorer,
the bucket classifier and the ICP validation helper.

Python strings are modelled as `List Char`; Python dictionaries whose
keys the source reads with fixed names are modelled as structures with
`Option` fields (`none` = key absent).  Python `re.search` over the two
concrete patterns of the source is modelled by hand-rolled left-to-right
scanners that implement greedy matching with backtracking for exactly
those patterns.  Scores are exact rationals (the Python floats involved
carry exact values at every point the claims touch, and the final
2-decimal rounding is the identity on every value the scorer can
produce, so no binary-float rounding is observable).
-/

namespace ICPScoring

/-- Python strings, modelled as their character lists. -/
abbrev Str : Type := List Char

/-- Coerce a Lean string literal to the model type. -/
def str (s : String) : Str := s.data

/-- Python `str.lower()` (per-character, ASCII is all the source uses). -/
def lowerStr (s : Str) : Str := s.map Char.toLower

/-- Python `str.strip()`: drop leading and trailing whitespace. -/
def stripStr (s : Str) : Str :=
  (s.dropWhile Char.isWhitespace).reverse.dropWhile Char.isWhitespace |>.reverse

/-- `startsWith needle hay`: `needle` is a leading block of `hay`. -/
def startsWith : List Char → List Char → Bool
  | [], _ => true
  | _ :: _, [] => false
  | a :: as, b :: bs => a == b && startsWith as bs

/-- Python `needle in hay` for strings: contiguous-substring test. -/
def hasSub (needle : List Char) : List Char → Bool
  | [] => startsWith needle []
  | c :: t => startsWith needle (c :: t) || hasSub needle t

/-- Case-insensitive literal match: `lit` is a leading block of `hay`
up to `Char.toLower` (models a literal inside an `re.IGNORECASE` pattern). -/
def startsWithCI (lit : List Char) (hay : List Char) : Bool :=
  startsWith (lowerStr lit) (lowerStr (hay.take lit.length))

/-- Split on every `,` or `/` occurrence (Python `re.split(r'[,/]', s)`):
separators are removed, empty pieces are kept, and the empty string
yields one empty piece. -/
def splitCommaSlash : Str → List Str
  | [] => [[]]
  | c :: t =>
    if c == ',' || c == '/' then [] :: splitCommaSlash t
    else
      match splitCommaSlash t with
      | [] => [[c]]
      | h :: r => (c :: h) :: r

/-- The token-list normalisation the parser applies to every free-text
criterion: `[x.strip().lower() for x in re.split(r'[,/]', s) if x.strip()]`. -/
def tokenize (s : Str) : List Str :=
  ((splitCommaSlash s).map stripStr).filter (fun t => t ≠ []) |>.map lowerStr

/-- Maximal leading digit run of a string, with the rest. -/
def takeDigits (l : List Char) : List Char × List Char :=
  (l.takeWhile Char.isDigit, l.dropWhile Char.isDigit)

/-- Python `int(...)` on a digit string. -/
def natOfDigits (l : List Char) : Nat :=
  l.foldl (fun acc c => 10 * acc + (c.toNat - '0'.toNat)) 0

/-- Drop a maximal leading whitespace run (`\s*`, greedy; safe here because
no whitespace character can start the literal that follows it). -/
def dropSpaces (l : List Char) : List Char := l.dropWhile Char.isWhitespace

/-! ### The two `company_size` patterns

`re.search(r'(\d+)-(\d+)\s*employees', s, re.IGNORECASE)` and
`re.search(r'\$(\d+)[MKB]?-\$(?:(\d+)[MKB]?)?\s*revenue', s, re.IGNORECASE)`.

`re.search` tries start positions left to right and at the first viable one
performs a greedy match.  For these patterns a maximal digit / whitespace
run never needs shrinking (a digit is neither `-`, `$`, a whitespace
character, a suffix letter, nor the first letter of the literal that
follows), so only the two optional items need explicit backtracking. -/

/-- Match `(\d+)-(\d+)\s*employees` anchored at the head of `l`,
returning the two captured numbers. -/
def matchEmployeeAt (l : List Char) : Option (Nat × Nat) :=
  let (d1, r1) := takeDigits l
  if d1 = [] then none else
  match r1 with
  | '-' :: r2 =>
    let (d2, r3) := takeDigits r2
    if d2 = [] then none else
    if startsWithCI (str "employees") (dropSpaces r3) then
      some (natOfDigits d1, natOfDigits d2)
    else none
  | _ => none

/-- `re.search` of the employee pattern: leftmost viable start position. -/
def searchEmployee : List Char → Option (Nat × Nat)
  | [] => matchEmployeeAt []
  | c :: t =>
    match matchEmployeeAt (c :: t) with
    | some r => some r
    | none => searchEmployee t

/-- The character class `[MKB]` under `re.IGNORECASE`. -/
def isMKB (c : Char) : Bool :=
  c == 'M' || c == 'K' || c == 'B' || c == 'm' || c == 'k' || c == 'b'

/-- Match `\s*revenue` anchored at the head; returns the remainder after
the literal. -/
def matchSpacesRevenue (l : List Char) : Option (List Char) :=
  let r := dropSpaces l
  if startsWithCI (str "revenue") r then some (r.drop 7) else none

/-- Match `(?:(\d+)[MKB]?)?\s*revenue` anchored at the head: greedy, so the
digit group is tried first (with and then without its optional suffix
letter) before the empty alternative.  Returns the optional second capture
and the remainder. -/
def matchOptGroup2 (l : List Char) : Option (Option Nat × List Char) :=
  let (d, r) := takeDigits l
  let withGroup : Option (Option Nat × List Char) :=
    if d = [] then none else
    match
      (match r with
       | c :: r2 => if isMKB c then (matchSpacesRevenue r2).map (fun rem => (some (natOfDigits d), rem)) else none
       | [] => none)
    with
    | some res => some res
    | none => (matchSpacesRevenue r).map (fun rem => (some (natOfDigits d), rem))
  match withGroup with
  | some res => some res
  | none => (matchSpacesRevenue l).map (fun rem => ((none : Option Nat), rem))

/-- Match `\$(\d+)[MKB]?-\$(?:(\d+)[MKB]?)?\s*revenue` anchored at the head;
returns (capture 1, capture 2, remainder after the match). -/
def matchRevenueAt (l : List Char) : Option (Nat × Option Nat × List Char) :=
  match l with
  | '$' :: r1 =>
    let (d1, r2) := takeDigits r1
    if d1 = [] then none else
    let afterDash : List Char → Option (Option Nat × List Char) := fun r =>
      match r with
      | '-' :: '$' :: r3 => matchOptGroup2 r3
      | _ => none
    let res :=
      match
        (match r2 with
         | c :: r3 => if isMKB c then afterDash r3 else none
         | [] => none)
      with
      | some res => some res
      | none => afterDash r2
    res.map (fun (g2, rem) => (natOfDigits d1, g2, rem))
  | _ => none

/-- `re.search` of the revenue pattern.  On success returns
(`group(0)` — the whole matched text, `group(1)`, `group(2)`). -/
def searchRevenue (s : List Char) : Option (List Char × Nat × Option Nat) :=
  let rec go : List Char → Option (List Char × Nat × Option Nat)
    | [] =>
      match matchRevenueAt [] with
      | some (g1, g2, rem) => some (([] : List Char).take (0 - rem.length), g1, g2)
      | none => none
    | c :: t =>
      match matchRevenueAt (c :: t) with
      | some (g1, g2, rem) => some ((c :: t).take ((c :: t).length - rem.length), g1, g2)
      | none => go t
  go s

/-! ### The raw ICP definition

The source reads the definition dictionary with `.get(key, default)` on a
fixed set of keys; each group is modelled as a structure of `Option`
fields (`none` = key absent).  A criterion value may be any Python value;
the source only distinguishes strings (processed) from non-strings (fed
to `re.split` / `re.search`, which raise `TypeError`), so two
constructors suffice. -/

/-- A Python value sitting under a criterion key. -/
inductive PyVal where
  | pstr (s : Str)
  | pint (n : Int)
deriving DecidableEq

/-- The `company_characteristics` group of the raw definition. -/
structure CompanyCharacteristicsDef where
  industry_vertical : Option PyVal := none
  company_size : Option PyVal := none
  geography : Option PyVal := none
  technology_stack : Option PyVal := none
  business_model : Option PyVal := none
  funding_growth : Option PyVal := none
deriving DecidableEq

/-- The `buyer_persona` group of the raw definition. -/
structure BuyerPersonaDef where
  decision_maker_profile : Option PyVal := none
  pain_points : Option PyVal := none
  buying_behavior : Option PyVal := none
deriving DecidableEq

/-- The `engagement_signals` group of the raw definition. -/
structure EngagementSignalsDef where
  intent_signals : Option PyVal := none
  content_engagement : Option PyVal := none
deriving DecidableEq

/-- A raw ICP definition: the three groups, each possibly absent
(`icp_definition.get(group, {})` yields the empty group). -/
structure ICPDefinition where
  company_characteristics : Option CompanyCharacteristicsDef := none
  buyer_persona : Option BuyerPersonaDef := none
  engagement_signals : Option EngagementSignalsDef := none
deriving DecidableEq

/-- `group.get(key, "")` followed by use as a string in an `re` function:
an absent key defaults to `""`, a string is used as is, and a non-string
raises `TypeError` (Python `re` functions reject non-strings). -/
def getStr (v : Option PyVal) : Except String Str :=
  match v with
  | none => .ok []
  | some (.pstr s) => .ok s
  | some (.pint _) => .error "TypeError: expected string or bytes-like object"

/-! ### The parsed ICP -/

/-- A `{"min": ..., "max": ...}` dictionary (`None` = `none`). -/
structure PyBounds where
  min : Option Int
  max : Option Int
deriving DecidableEq

/-- Parsed `company_characteristics`. -/
structure ParsedCC where
  industry_vertical : List Str
  employee_count_range : PyBounds
  revenue_range : PyBounds
  geography : List Str
  technology_stack : List Str
  business_model : List Str
  funding_growth : List Str
deriving DecidableEq

/-- Parsed `buyer_persona`. -/
structure ParsedBP where
  decision_maker_profile : List Str
  pain_points : List Str
  buying_behavior : List Str
deriving DecidableEq

/-- Parsed `engagement_signals`. -/
structure ParsedES where
  intent_signals : List Str
  content_engagement : List Str
deriving DecidableEq

/-- The parsed ICP held by the scorer. -/
structure ParsedICP where
  company_characteristics : ParsedCC
  buyer_persona : ParsedBP
  engagement_signals : ParsedES
deriving DecidableEq

/-- The revenue-suffix multiplier of the source:
`10**6 if 'M' in revenue_match.group(0) else 10**3 if 'K' in revenue_match.group(0) else 1`.
The membership tests are case-sensitive Python `in` on the whole matched
text. -/
def revMultiplier (g0 : Str) : Int :=
  if g0.contains 'M' then 10 ^ 6 else if g0.contains 'K' then 10 ^ 3 else 1

/-- `ICPScorer._parse_icp_definition`.  Any `TypeError` raised by an `re`
call on a non-string criterion value propagates as `.error`. -/
def parse_icp_definition (d : ICPDefinition) : Except String ParsedICP := do
  let cc := d.company_characteristics.getD {}
  let industry_vertical := tokenize (← getStr cc.industry_vertical)

  let company_size_str ← getStr cc.company_size
  let employee_match := searchEmployee company_size_str
  let revenue_match := searchRevenue company_size_str

  let employee_count_range : PyBounds :=
    match employee_match with
    | some (lo, hi) => ⟨some (lo : Int), some (hi : Int)⟩
    | none => ⟨none, none⟩

  let revenue_range : PyBounds :=
    match revenue_match with
    | some (g0, g1, g2) =>
      ⟨some ((g1 : Int) * revMultiplier g0),
       match g2 with
       | some n => some ((n : Int) * revMultiplier g0)
       | none => none⟩
    | none => ⟨none, none⟩

  let geography := tokenize (← getStr cc.geography)
  let technology_stack := tokenize (← getStr cc.technology_stack)
  let business_model := tokenize (← getStr cc.business_model)
  let funding_growth := tokenize (← getStr cc.funding_growth)

  let bp := d.buyer_persona.getD {}
  let decision_maker_profile := tokenize (← getStr bp.decision_maker_profile)
  let pain_points := tokenize (← getStr bp.pain_points)
  let buying_behavior := tokenize (← getStr bp.buying_behavior)

  let es := d.engagement_signals.getD {}
  let intent_signals := tokenize (← getStr es.intent_signals)
  let content_engagement := tokenize (← getStr es.content_engagement)

  return {
    company_characteristics :=
      { industry_vertical, employee_count_range, revenue_range,
        geography, technology_stack, business_model, funding_growth },
    buyer_persona := { decision_maker_profile, pain_points, buying_behavior },
    engagement_signals := { intent_signals, content_engagement } }

/-! ### The lead record

The scorer reads `lead_data` through `.get` with defaults: string fields
via `.get(key, "")` (so an absent key and `""` are indistinguishable and
are modelled as one value), list fields via `.get(key, [])`, numeric
fields via `.get(key)` (`Option Int`, `none` = absent/`None`), and signal
and timing flags via `.get(key)` whose result is only ever used for its
truthiness (`Bool`). -/

structure LeadCompany where
  industry : Str := []
  employee_count : Option Int := none
  revenue_estimate : Option Int := none
  geography : Str := []
  tech_stack : List Str := []
  growth_indicators : List Str := []
deriving DecidableEq

structure LeadContact where
  title : Str := []
  seniority : Str := []
  department : Str := []
  authority_level : Str := []
deriving DecidableEq

structure LeadSignals where
  recent_funding : Bool := false
  hiring_relevant_roles : Bool := false
  tech_stack_changes : Bool := false
  competitor_mentions : Bool := false
  product_launches : Bool := false
deriving DecidableEq

structure LeadTiming where
  fiscal_calendar_alignment : Bool := false
  recent_trigger_events : Bool := false
  seasonal_factors : Bool := false
deriving DecidableEq

structure LeadRecord where
  company : LeadCompany := {}
  contact : LeadContact := {}
  signals : LeadSignals := {}
  timing : LeadTiming := {}
deriving DecidableEq

/-- `any(t in field for t in tokens)` where `in` is the substring test. -/
def anySub (tokens : List Str) (field : Str) : Bool :=
  tokens.any (fun t => hasSub t field)

/-- `any(t in field for t in tokens)` where `field` is a list of strings,
so `in` is list membership. -/
def anyMem (tokens : List Str) (field : List Str) : Bool :=
  tokens.any (fun t => field.contains t)

/-! Each point rule of the scorer, as its own gate predicate.  Every gate
reads exactly one lead field. -/

/-- Industry rule gate: `lead_industry and any(i in lead_industry for i in ...)`. -/
def gIndustry (icp : ParsedICP) (lead : LeadRecord) : Bool :=
  let li := lowerStr lead.company.industry
  li ≠ [] && anySub icp.company_characteristics.industry_vertical li

/-- Employee-count rule gate: the count is truthy (non-`None`, non-zero),
both parsed bounds are non-null, and the count lies inside them. -/
def gEmployee (icp : ParsedICP) (lead : LeadRecord) : Bool :=
  match lead.company.employee_count,
        icp.company_characteristics.employee_count_range.min,
        icp.company_characteristics.employee_count_range.max with
  | some v, some lo, some hi => v ≠ 0 && lo ≤ v && v ≤ hi
  | _, _, _ => false

/-- Revenue rule gate, same shape as the employee gate. -/
def gRevenue (icp : ParsedICP) (lead : LeadRecord) : Bool :=
  match lead.company.revenue_estimate,
        icp.company_characteristics.revenue_range.min,
        icp.company_characteristics.revenue_range.max with
  | some v, some lo, some hi => v ≠ 0 && lo ≤ v && v ≤ hi
  | _, _, _ => false

/-- Geography rule gate (substring test, like the industry rule). -/
def gGeography (icp : ParsedICP) (lead : LeadRecord) : Bool :=
  let lg := lowerStr lead.company.geography
  lg ≠ [] && anySub icp.company_characteristics.geography lg

/-- Tech-stack rule gate: `lead_tech_stack and any(t in lead_tech_stack ...)`
— list membership on the lowercased lead list. -/
def gTechStack (icp : ParsedICP) (lead : LeadRecord) : Bool :=
  let ts := lead.company.tech_stack.map lowerStr
  ts ≠ [] && anyMem icp.company_characteristics.technology_stack ts

/-- Growth-indicators rule gate, same shape as the tech-stack rule. -/
def gGrowth (icp : ParsedICP) (lead : LeadRecord) : Bool :=
  let gi := lead.company.growth_indicators.map lowerStr
  gi ≠ [] && anyMem icp.company_characteristics.funding_growth gi

/-- Title rule gate (substring test against `decision_maker_profile`). -/
def gTitle (icp : ParsedICP) (lead : LeadRecord) : Bool :=
  let lt := lowerStr lead.contact.title
  lt ≠ [] && anySub icp.buyer_persona.decision_maker_profile lt

/-- Seniority rule gate (same token set as the title rule). -/
def gSeniority (icp : ParsedICP) (lead : LeadRecord) : Bool :=
  let ls := lowerStr lead.contact.seniority
  ls ≠ [] && anySub icp.buyer_persona.decision_maker_profile ls

/-- Department rule gate (same token set as the title rule). -/
def gDepartment (icp : ParsedICP) (lead : LeadRecord) : Bool :=
  let ld := lowerStr lead.contact.department
  ld ≠ [] && anySub icp.buyer_persona.decision_maker_profile ld

/-- Authority rule gate (substring test against `buying_behavior`). -/
def gAuthority (icp : ParsedICP) (lead : LeadRecord) : Bool :=
  let la := lowerStr lead.contact.authority_level
  la ≠ [] && anySub icp.buyer_persona.buying_behavior la

/-- Funding-signal gate: flag set and `"funding announcements"` among the
parsed intent-signal tokens. -/
def gFunding (icp : ParsedICP) (lead : LeadRecord) : Bool :=
  lead.signals.recent_funding && icp.engagement_signals.intent_signals.contains (str "funding announcements")

def gHiring (icp : ParsedICP) (lead : LeadRecord) : Bool :=
  lead.signals.hiring_relevant_roles && icp.engagement_signals.intent_signals.contains (str "job postings")

def gTechChange (icp : ParsedICP) (lead : LeadRecord) : Bool :=
  lead.signals.tech_stack_changes && icp.engagement_signals.intent_signals.contains (str "technology changes")

def gCompetitor (icp : ParsedICP) (lead : LeadRecord) : Bool :=
  lead.signals.competitor_mentions && icp.engagement_signals.intent_signals.contains (str "competitive wins/losses")

def gLaunch (icp : ParsedICP) (lead : LeadRecord) : Bool :=
  lead.signals.product_launches && icp.engagement_signals.intent_signals.contains (str "product launches")

def gFiscal (lead : LeadRecord) : Bool := lead.timing.fiscal_calendar_alignment
def gTrigger (lead : LeadRecord) : Bool := lead.timing.recent_trigger_events
def gSeasonal (lead : LeadRecord) : Bool := lead.timing.seasonal_factors

/-- `ICPScorer._calculate_company_fit`. -/
def calculate_company_fit (icp : ParsedICP) (lead : LeadRecord) : Nat :=
  (if gIndustry icp lead then 25 else 0) +
  (if gEmployee icp lead then 10 else 0) +
  (if gRevenue icp lead then 10 else 0) +
  (if gGeography icp lead then 15 else 0) +
  (if gTechStack icp lead then 20 else 0) +
  (if gGrowth icp lead then 20 else 0)

/-- `ICPScorer._calculate_persona_fit`. -/
def calculate_persona_fit (icp : ParsedICP) (lead : LeadRecord) : Nat :=
  (if gTitle icp lead then 30 else 0) +
  (if gSeniority icp lead then 25 else 0) +
  (if gDepartment icp lead then 25 else 0) +
  (if gAuthority icp lead then 20 else 0)

/-- `ICPScorer._calculate_intent_signal_score`. -/
def calculate_intent_signal_score (icp : ParsedICP) (lead : LeadRecord) : Nat :=
  (if gFunding icp lead then 30 else 0) +
  (if gHiring icp lead then 25 else 0) +
  (if gTechChange icp lead then 20 else 0) +
  (if gCompetitor icp lead then 15 else 0) +
  (if gLaunch icp lead then 10 else 0)

/-- `ICPScorer._calculate_timing_score`. -/
def calculate_timing_score (lead : LeadRecord) : Nat :=
  (if gFiscal lead then 30 else 0) +
  (if gTrigger lead then 40 else 0) +
  (if gSeasonal lead then 30 else 0)

/-- Python `round(x, 2)`.  Python rounds half to even; every value this
scorer rounds is an integer multiple of 1/10, so no half-cent tie can
occur and half-up rounding (Mathlib `round`) coincides with it. -/
def round2 (q : ℚ) : ℚ := ((round (q * 100) : ℤ) : ℚ) / 100

/-- `ICPScorer.score_lead`: clamp each sub-score at 100, take the
weighted sum, round to 2 decimals. -/
def score_lead (icp : ParsedICP) (lead : LeadRecord) : ℚ :=
  let company_fit_score := min 100 (calculate_company_fit icp lead)
  let persona_fit_score := min 100 (calculate_persona_fit icp lead)
  let intent_signal_score := min 100 (calculate_intent_signal_score icp lead)
  let timing_score := min 100 (calculate_timing_score lead)
  round2 ((company_fit_score : ℚ) * 0.4 +
          (persona_fit_score : ℚ) * 0.3 +
          (intent_signal_score : ℚ) * 0.2 +
          (timing_score : ℚ) * 0.1)

/-! ### Scorer object, classifier, validation -/

/-- The `bucket_thresholds` dictionary read by `categorize_lead`. -/
structure Thresholds where
  hot : ℚ
  warm : ℚ
deriving DecidableEq

/-- The `ICPScorer` object.  `bucket_thresholds` is an attribute the
class reads but no method ever assigns; `none` models the attribute
being absent from the instance. -/
structure ICPScorer where
  raw_icp_definition : ICPDefinition
  parsed_icp : ParsedICP
  bucket_thresholds : Option Thresholds

/-- `ICPScorer.__init__`: store the raw definition and parse it.  No
statement of the constructor touches `bucket_thresholds`, so the built
instance carries `none` there. -/
def ICPScorer.init (icp_definition : ICPDefinition) : Except String ICPScorer :=
  (parse_icp_definition icp_definition).map fun p =>
    { raw_icp_definition := icp_definition
      parsed_icp := p
      bucket_thresholds := none }

/-- The error a read of the missing `bucket_thresholds` attribute raises
(`AttributeError`) — the "thresholds not configured" configuration error. -/
def thresholdsNotConfigured : String :=
  "AttributeError: ICPScorer object has no attribute bucket_thresholds (thresholds not configured)"

/-- `ICPScorer.categorize_lead`. -/
def categorize_lead (scorer : ICPScorer) (total_score : ℚ) : Except String String :=
  match scorer.bucket_thresholds with
  | none => .error thresholdsNotConfigured
  | some th =>
    if total_score ≥ th.hot then .ok "hot"
    else if total_score ≥ th.warm then .ok "warm"
    else .ok "cold"

/-- Python truthiness of the values of a parsed group.  A token list is
truthy iff non-empty; a bounds value is a dictionary that always carries
its two keys, hence is always a non-empty dictionary and always truthy. -/
def truthyBounds (_ : PyBounds) : Bool := true

/-- `any(parsed["company_characteristics"].values())`. -/
def ccAny (cc : ParsedCC) : Bool :=
  decide (cc.industry_vertical ≠ []) || truthyBounds cc.employee_count_range ||
  truthyBounds cc.revenue_range || decide (cc.geography ≠ []) ||
  decide (cc.technology_stack ≠ []) || decide (cc.business_model ≠ []) ||
  decide (cc.funding_growth ≠ [])

/-- `any(parsed["buyer_persona"].values())`. -/
def bpAny (bp : ParsedBP) : Bool :=
  decide (bp.decision_maker_profile ≠ []) || decide (bp.pain_points ≠ []) ||
  decide (bp.buying_behavior ≠ [])

/-- `any(parsed["engagement_signals"].values())`. -/
def esAny (es : ParsedES) : Bool :=
  decide (es.intent_signals ≠ []) || decide (es.content_engagement ≠ [])

/-- Result dictionary of `validate_icp`. -/
structure ValidationResult where
  is_valid : Bool
  message : String
deriving DecidableEq

/-- `ICPScorer.validate_icp`. -/
def validate_icp (icp : ParsedICP) : ValidationResult :=
  if ¬ ccAny icp.company_characteristics then
    ⟨false, "Company characteristics are not sufficiently defined in the ICP."⟩
  else if ¬ bpAny icp.buyer_persona then
    ⟨false, "Buyer persona is not sufficiently defined in the ICP."⟩
  else if ¬ esAny icp.engagement_signals then
    ⟨false, "Engagement signals are not sufficiently defined in the ICP."⟩
  else if icp.company_characteristics.industry_vertical = [] then
    ⟨false, "ICP is missing target industries."⟩
  else if icp.buyer_persona.decision_maker_profile = [] then
    ⟨false, "ICP is missing target decision maker profiles."⟩
  else
    ⟨true, "ICP looks good!"⟩

/-! ### Predicates used by the claims -/

/-- A criterion value the `re` functions accept: absent or a string. -/
def strOk : Option PyVal → Bool
  | some (.pint _) => false
  | _ => true

/-- Every criterion value of the definition is absent or a string. -/
def allStringVals (d : ICPDefinition) : Bool :=
  let cc := d.company_characteristics.getD {}
  let bp := d.buyer_persona.getD {}
  let es := d.engagement_signals.getD {}
  strOk cc.industry_vertical && strOk cc.company_size && strOk cc.geography &&
  strOk cc.technology_stack && strOk cc.business_model && strOk cc.funding_growth &&
  strOk bp.decision_maker_profile && strOk bp.pain_points && strOk bp.buying_behavior &&
  strOk es.intent_signals && strOk es.content_engagement

/-- The parsed `company_characteristics` group is entirely empty: every
token list empty and both ranges null. -/
def ccEmptyP (cc : ParsedCC) : Prop :=
  cc.industry_vertical = [] ∧ cc.geography = [] ∧ cc.technology_stack = [] ∧
  cc.business_model = [] ∧ cc.funding_growth = [] ∧
  cc.employee_count_range = ⟨none, none⟩ ∧ cc.revenue_range = ⟨none, none⟩

/-- The parsed `buyer_persona` group is entirely empty. -/
def bpEmptyP (bp : ParsedBP) : Prop :=
  bp.decision_maker_profile = [] ∧ bp.pain_points = [] ∧ bp.buying_behavior = []

/-- The parsed `engagement_signals` group is entirely empty. -/
def esEmptyP (es : ParsedES) : Prop :=
  es.intent_signals = [] ∧ es.content_engagement = []

/-! ### Concrete instances used by the claims -/

/-- An ICP definition carrying only a `company_size` text. -/
def ccSizeDef (s : Str) : ICPDefinition :=
  { company_characteristics := some { company_size := some (.pstr s) } }

/-- Parse result of the empty ICP definition: everything degrades to
empty token lists and null ranges. -/
def emptyParsed : ParsedICP :=
  { company_characteristics :=
      { industry_vertical := [], employee_count_range := ⟨none, none⟩,
        revenue_range := ⟨none, none⟩, geography := [], technology_stack := [],
        business_model := [], funding_growth := [] }
    buyer_persona := { decision_maker_profile := [], pain_points := [], buying_behavior := [] }
    engagement_signals := { intent_signals := [], content_engagement := [] } }

/-- A definition with a non-string criterion value. -/
def icpDefBad : ICPDefinition :=
  { company_characteristics := some { industry_vertical := some (.pint 42) } }

/-- The spec's end-to-end scenario ICP. -/
def icpDef6 : ICPDefinition :=
  { company_characteristics := some
      { industry_vertical := some (.pstr (str "B2B SaaS"))
        company_size := some (.pstr (str "10-50 employees, $1M-$10M revenue")) } }

/-- What `icpDef6` parses to. -/
def icp6 : ParsedICP :=
  { company_characteristics :=
      { industry_vertical := [str "b2b saas"]
        employee_count_range := ⟨some 10, some 50⟩
        revenue_range := ⟨some 1000000, some 10000000⟩
        geography := [], technology_stack := [], business_model := [], funding_growth := [] }
    buyer_persona := { decision_maker_profile := [], pain_points := [], buying_behavior := [] }
    engagement_signals := { intent_signals := [], content_engagement := [] } }

/-- The spec's end-to-end scenario lead. -/
def lead6 : LeadRecord :=
  { company := { industry := str "B2B SaaS Tools"
                 employee_count := some 30
                 revenue_estimate := some 5000000 } }

/-- An ICP definition that fills every criterion, its intent-signal text
naming all five signal phrases the intent gates test for. -/
def icpDefFull : ICPDefinition :=
  { company_characteristics := some
      { industry_vertical := some (.pstr (str "B2B SaaS"))
        company_size := some (.pstr (str "10-50 employees, $1M-$10M revenue"))
        geography := some (.pstr (str "North America"))
        technology_stack := some (.pstr (str "Python, AWS"))
        business_model := some (.pstr (str "subscription"))
        funding_growth := some (.pstr (str "series a")) }
    buyer_persona := some
      { decision_maker_profile := some (.pstr (str "VP of Engineering, CTO"))
        pain_points := some (.pstr (str "scaling"))
        buying_behavior := some (.pstr (str "has budget authority")) }
    engagement_signals := some
      { intent_signals := some (.pstr (str "funding announcements, job postings, technology changes, competitive wins/losses, product launches"))
        content_engagement := some (.pstr (str "webinars")) } }

/-- What `icpDefFull` parses to.  Note the intent-signal text was split at
its `'/'`: the tokens are `"competitive wins"` and `"losses"`, never
`"competitive wins/losses"`. -/
def icpFull : ParsedICP :=
  { company_characteristics :=
      { industry_vertical := [str "b2b saas"]
        employee_count_range := ⟨some 10, some 50⟩
        revenue_range := ⟨some 1000000, some 10000000⟩
        geography := [str "north america"]
        technology_stack := [str "python", str "aws"]
        business_model := [str "subscription"]
        funding_growth := [str "series a"] }
    buyer_persona :=
      { decision_maker_profile := [str "vp of engineering", str "cto"]
        pain_points := [str "scaling"]
        buying_behavior := [str "has budget authority"] }
    engagement_signals :=
      { intent_signals :=
          [str "funding announcements", str "job postings", str "technology changes",
           str "competitive wins", str "losses", str "product launches"]
        content_engagement := [str "webinars"] } }

/-- A lead that matches every criterion `icpDefFull` defines and carries
every signal and timing flag. -/
def leadFull : LeadRecord :=
  { company := { industry := str "B2B SaaS Tools"
                 employee_count := some 30
                 revenue_estimate := some 5000000
                 geography := str "USA, North America"
                 tech_stack := [str "Python", str "GCP"]
                 growth_indicators := [str "Series A"] }
    contact := { title := str "CTO"
                 seniority := str "C-Level CTO"
                 department := str "CTO Office"
                 authority_level := str "Has Budget Authority" }
    signals := { recent_funding := true, hiring_relevant_roles := true,
                 tech_stack_changes := true, competitor_mentions := true,
                 product_launches := true }
    timing := { fiscal_calendar_alignment := true, recent_trigger_events := true,
                seasonal_factors := true } }

/-- A lead with no data at all. -/
def leadNone : LeadRecord := {}

/-- `leadFull` with every timing flag cleared. -/
def leadFullNoTiming : LeadRecord :=
  { leadFull with timing := {} }

/-- Closed form of parsing a definition that carries only a
`company_size` text: everything else degrades to empty, and the two
ranges are read off the two pattern searches. -/
def ccSizeParsed (s : Str) : ParsedICP :=
  { company_characteristics :=
      { industry_vertical := []
        employee_count_range :=
          match searchEmployee s with
          | some (lo, hi) => ⟨some (lo : Int), some (hi : Int)⟩
          | none => ⟨none, none⟩
        revenue_range :=
          match searchRevenue s with
          | some (g0, g1, g2) =>
            ⟨some ((g1 : Int) * revMultiplier g0),
             match g2 with
             | some n => some ((n : Int) * revMultiplier g0)
             | none => none⟩
          | none => ⟨none, none⟩
        geography := [], technology_stack := [], business_model := [], funding_growth := [] }
    buyer_persona := { decision_maker_profile := [], pain_points := [], buying_behavior := [] }
    engagement_signals := { intent_signals := [], content_engagement := [] } }

/-- A parsed ICP whose ranges both start at 0. -/
def icpZero : ParsedICP :=
  { company_characteristics :=
      { industry_vertical := [], employee_count_range := ⟨some 0, some 50⟩,
        revenue_range := ⟨some 0, some 50⟩, geography := [], technology_stack := [],
        business_model := [], funding_growth := [] }
    buyer_persona := { decision_maker_profile := [], pain_points := [], buying_behavior := [] }
    engagement_signals := { intent_signals := [], content_engagement := [] } }

/-- A lead whose company reports zero employees and zero revenue. -/
def leadZero : LeadRecord :=
  { company := { employee_count := some 0, revenue_estimate := some 0 } }

/-- A scorer whose caller installed thresholds hot = 80, warm = 50. -/
def scorer80 : ICPScorer :=
  { raw_icp_definition := {}
    parsed_icp := emptyParsed
    bucket_thresholds := some ⟨80, 50⟩ }

/-- The scorer `ICPScorer.init {}` builds. -/
def scorer0 : ICPScorer :=
  { raw_icp_definition := {}
    parsed_icp := emptyParsed
    bucket_thresholds := none }

/-! ### Shared facts about the scorer -/

/-- Rounding to 2 decimals is the identity on integer multiples of 1/10 —
every weighted sum the scorer produces is one. -/
theorem round2_tenth (n : ℕ) : round2 ((n : ℚ) / 10) = (n : ℚ) / 10 := by
  unfold round2
  have h : ((n : ℚ) / 10) * 100 = ((10 * n : ℕ) : ℚ) := by push_cast; ring
  rw [h, round_natCast]
  push_cast
  ring

/-- Closed form of `score_lead`: the weighted sum of the clamped
sub-scores is `(4c + 3p + 2i + t)/10`, and the 2-decimal rounding is the
identity on it. -/
theorem score_lead_eq (icp : ParsedICP) (lead : LeadRecord) :
    score_lead icp lead =
      ((4 * min 100 (calculate_company_fit icp lead)
        + 3 * min 100 (calculate_persona_fit icp lead)
        + 2 * min 100 (calculate_intent_signal_score icp lead)
        + min 100 (calculate_timing_score lead) : ℕ) : ℚ) / 10 := by
  simp only [score_lead]
  have h : ∀ c p i t : ℕ, (c : ℚ) * 0.4 + (p : ℚ) * 0.3 + (i : ℚ) * 0.2 + (t : ℚ) * 0.1
      = ((4 * c + 3 * p + 2 * i + t : ℕ) : ℚ) / 10 := by
    intro c p i t; push_cast; norm_num; ring
  rw [h, round2_tenth]

/-- Gated summands compare pointwise when the gates imply one another. -/
theorem ite_le_ite_of_imp {a b : Bool} (h : a = true → b = true) (n : ℕ) :
    (if a then n else 0) ≤ (if b then n else 0) := by
  cases a
  · simp
  · rw [h rfl]

/-- The splitter always produces at least one piece. -/
theorem splitCommaSlash_ne_nil (s : Str) : splitCommaSlash s ≠ [] := by
  cases s with
  | nil => simp [splitCommaSlash]
  | cons a t =>
    simp only [splitCommaSlash]
    split
    · simp
    · split <;> simp

/-- The splitter never leaves a separator character inside a piece. -/
theorem splitCommaSlash_no_sep (s : Str) :
    ∀ piece ∈ splitCommaSlash s, ∀ c ∈ piece, c ≠ ',' ∧ c ≠ '/' := by
  induction s with
  | nil =>
    intro piece hp c hc
    simp only [splitCommaSlash, List.mem_singleton] at hp
    subst hp
    simp at hc
  | cons a t ih =>
    intro piece hp c hc
    by_cases ha : (a == ',' || a == '/') = true
    · simp only [splitCommaSlash, ha, if_true, List.mem_cons] at hp
      rcases hp with rfl | hp
      · simp at hc
      · exact ih piece hp c hc
    · rcases hsp : splitCommaSlash t with _ | ⟨piece0, rest⟩
      · exact absurd hsp (splitCommaSlash_ne_nil t)
      · simp only [splitCommaSlash, ha, if_false, hsp] at hp
        have ha' : a ≠ ',' ∧ a ≠ '/' := by
          simpa [not_or] using ha
        cases hp with
        | head =>
          cases hc with
          | head => exact ha'
          | tail _ hc' => exact ih piece0 (hsp ▸ List.mem_cons_self piece0 rest) c hc'
        | tail _ hp' => exact ih piece (hsp ▸ List.mem_cons_of_mem piece0 hp') c hc

/-- `Char.toLower` can only produce `'/'` from `'/'` itself. -/
theorem toLower_eq_slash {c : Char} (h : c.toLower = '/') : c = '/' := by
  simp only [Char.toLower] at h
  split at h
  · exfalso
    rename_i hb
    obtain ⟨h1, h2⟩ := hb
    generalize hn : Char.toNat c = n at h1 h2 h
    interval_cases n <;> exact absurd h (by decide)
  · exact h

/-- Stripping only removes characters. -/
theorem mem_of_mem_stripStr {c : Char} {l : Str} (h : c ∈ stripStr l) : c ∈ l := by
  unfold stripStr at h
  have h1 := List.mem_reverse.mp h
  have h2 := (List.dropWhile_sublist _).subset h1
  have h3 := List.mem_reverse.mp h2
  exact (List.dropWhile_sublist _).subset h3

/-- No parsed criterion token ever contains `'/'`: the tokenizer splits on
it, and lowercasing cannot introduce it. -/
theorem tokenize_no_slash (s : Str) {t : Str} (ht : t ∈ tokenize s) : '/' ∉ t := by
  intro hslash
  unfold tokenize at ht
  obtain ⟨u, hu, rfl⟩ := List.mem_map.mp ht
  obtain ⟨c, hc, hcl⟩ := List.mem_map.mp hslash
  have hc' : c = '/' := toLower_eq_slash hcl
  subst hc'
  have hu' := List.mem_of_mem_filter hu
  obtain ⟨piece, hpiece, rfl⟩ := List.mem_map.mp hu'
  exact (splitCommaSlash_no_sep s piece hpiece '/' (mem_of_mem_stripStr hc)).2 rfl

/-- Consequently no tokenizer output contains the literal
`"competitive wins/losses"` the competitor gate tests for. -/
theorem tokenize_no_competitor (s : Str) :
    (tokenize s).contains (str "competitive wins/losses") = false := by
  by_contra hne
  rw [Bool.not_eq_false] at hne
  exact tokenize_no_slash s (List.elem_iff.mp hne) (by decide)

/-- A successful step feeds its value to the continuation. -/
theorem ok_bind {α β : Type} (a : α) (f : α → Except String β) :
    ((Except.ok a : Except String α) >>= f) = f a := rfl

/-- `parse_icp_definition` on a definition holding only a `company_size`
string, in closed form. -/
theorem parse_ccSizeDef (s : Str) :
    parse_icp_definition (ccSizeDef s) = .ok (ccSizeParsed s) := rfl

/-- Invert a successful monadic step. -/
theorem bind_ok {α β : Type} {x : Except String α} {f : α → Except String β} {b : β}
    (h : (x >>= f) = .ok b) : ∃ a, x = .ok a ∧ f a = .ok b := by
  cases x with
  | error e => exact absurd h (by simp [Bind.bind, Except.bind])
  | ok a => exact ⟨a, rfl, by simpa [Bind.bind, Except.bind] using h⟩

/-- Every successful parse obtained its intent-signal tokens from the
tokenizer. -/
theorem parse_ok_intent (d : ICPDefinition) (p : ParsedICP)
    (hd : parse_icp_definition d = .ok p) :
    ∃ s, getStr (d.engagement_signals.getD {}).intent_signals = .ok s ∧
      p.engagement_signals.intent_signals = tokenize s := by
  unfold parse_icp_definition at hd
  obtain ⟨s1, h1, hd⟩ := bind_ok hd
  obtain ⟨s2, h2, hd⟩ := bind_ok hd
  obtain ⟨s3, h3, hd⟩ := bind_ok hd
  obtain ⟨s4, h4, hd⟩ := bind_ok hd
  obtain ⟨s5, h5, hd⟩ := bind_ok hd
  obtain ⟨s6, h6, hd⟩ := bind_ok hd
  obtain ⟨s7, h7, hd⟩ := bind_ok hd
  obtain ⟨s8, h8, hd⟩ := bind_ok hd
  obtain ⟨s9, h9, hd⟩ := bind_ok hd
  obtain ⟨s10, h10, hd⟩ := bind_ok hd
  obtain ⟨s11, h11, hd⟩ := bind_ok hd
  simp only [pure, Except.pure, Except.ok.injEq] at hd
  subst hd
  exact ⟨s10, h10, rfl⟩

/-- The competitor intent gate can never fire on a parsed ICP: its test
string contains a `'/'` while no parsed token does. -/
theorem gCompetitor_unmatchable (d : ICPDefinition) (p : ParsedICP)
    (hd : parse_icp_definition d = .ok p) (lead : LeadRecord) :
    gCompetitor p lead = false := by
  obtain ⟨s, _, hs⟩ := parse_ok_intent d p hd
  unfold gCompetitor
  rw [hs, tokenize_no_competitor]
  simp

/-! ### C1 -/

/-- C1 (amended): on every parsed ICP the competitive-wins/losses intent
gate is unmatchable, so a lead that fires all seventeen matchable point
rules (six company, four persona, four remaining intent, three timing)
scores exactly 97.00, not 100.00: the matchable intent budget sums to 85. -/
theorem C1_max_matchable_score (d : ICPDefinition) (p : ParsedICP)
    (hd : parse_icp_definition d = .ok p) (lead : LeadRecord)
    (h1 : gIndustry p lead = true) (h2 : gEmployee p lead = true)
    (h3 : gRevenue p lead = true) (h4 : gGeography p lead = true)
    (h5 : gTechStack p lead = true) (h6 : gGrowth p lead = true)
    (h7 : gTitle p lead = true) (h8 : gSeniority p lead = true)
    (h9 : gDepartment p lead = true) (h10 : gAuthority p lead = true)
    (h11 : gFunding p lead = true) (h12 : gHiring p lead = true)
    (h13 : gTechChange p lead = true) (h14 : gLaunch p lead = true)
    (h15 : gFiscal lead = true) (h16 : gTrigger lead = true)
    (h17 : gSeasonal lead = true) :
    gCompetitor p lead = false ∧ score_lead p lead = 97 := by
  have hcomp := gCompetitor_unmatchable d p hd lead
  refine ⟨hcomp, ?_⟩
  rw [score_lead_eq]
  have hc : calculate_company_fit p lead = 100 := by
    norm_num [calculate_company_fit, h1, h2, h3, h4, h5, h6]
  have hp' : calculate_persona_fit p lead = 100 := by
    norm_num [calculate_persona_fit, h7, h8, h9, h10]
  have hi : calculate_intent_signal_score p lead = 85 := by
    norm_num [calculate_intent_signal_score, h11, h12, h13, h14, hcomp]
  have ht : calculate_timing_score lead = 100 := by
    norm_num [calculate_timing_score, h15, h16, h17]
  rw [hc, hp', hi, ht]
  norm_num

/-- C1 (counterexample): `leadFull` matches every matchable criterion of
the parsed `icpDefFull` — all seventeen fireable gates fire, and the
competitor gate cannot fire even though the lead's flag is set — yet the
score is 97.00, not 100.00. -/
theorem C1_counterexample :
    parse_icp_definition icpDefFull = .ok icpFull ∧
    leadFull.signals.competitor_mentions = true ∧
    gIndustry icpFull leadFull = true ∧ gEmployee icpFull leadFull = true ∧
    gRevenue icpFull leadFull = true ∧ gGeography icpFull leadFull = true ∧
    gTechStack icpFull leadFull = true ∧ gGrowth icpFull leadFull = true ∧
    gTitle icpFull leadFull = true ∧ gSeniority icpFull leadFull = true ∧
    gDepartment icpFull leadFull = true ∧ gAuthority icpFull leadFull = true ∧
    gFunding icpFull leadFull = true ∧ gHiring icpFull leadFull = true ∧
    gTechChange icpFull leadFull = true ∧ gLaunch icpFull leadFull = true ∧
    gFiscal leadFull = true ∧ gTrigger leadFull = true ∧ gSeasonal leadFull = true ∧
    gCompetitor icpFull leadFull = false ∧
    score_lead icpFull leadFull = 97 ∧ (97 : ℚ) ≠ 100 := by
  refine ⟨by rfl, rfl, by decide, by decide, by decide, by decide, by decide, by decide,
    by decide, by decide, by decide, by decide, by decide, by decide, by decide, by decide,
    rfl, rfl, rfl, by decide, ?_, by norm_num⟩
  rw [score_lead_eq]
  have hc : calculate_company_fit icpFull leadFull = 100 := by decide
  have hp' : calculate_persona_fit icpFull leadFull = 100 := by decide
  have hi : calculate_intent_signal_score icpFull leadFull = 85 := by decide
  have ht : calculate_timing_score leadFull = 100 := by decide
  rw [hc, hp', hi, ht]
  norm_num

/-- C1 (witness for the amended theorem). -/
theorem C1_max_matchable_score_witness :
    gCompetitor icpFull leadFull = false ∧ score_lead icpFull leadFull = 97 :=
  C1_max_matchable_score icpDefFull icpFull (by rfl) leadFull
    (by decide) (by decide) (by decide) (by decide) (by decide) (by decide)
    (by decide) (by decide) (by decide) (by decide) (by decide) (by decide)
    (by decide) (by decide) (by decide) (by decide) (by decide)

/-! ### C2 -/

/-- C2: no constructor path gives `bucket_thresholds` a value, and
classifying any score on such a scorer is the reported
"thresholds not configured" configuration error — never a silent
default bucket. -/
theorem C2_thresholds_not_configured (d : ICPDefinition) (s : ICPScorer)
    (h : ICPScorer.init d = .ok s) :
    s.bucket_thresholds = none ∧
    (∀ q : ℚ, categorize_lead s q = .error thresholdsNotConfigured) ∧
    (∀ q : ℚ, ∀ b : String, categorize_lead s q ≠ .ok b) := by
  have hb : s.bucket_thresholds = none := by
    unfold ICPScorer.init at h
    cases hp : parse_icp_definition d with
    | error e =>
      rw [hp] at h
      exact absurd h (by simp [Except.map])
    | ok p =>
      rw [hp] at h
      simp only [Except.map, Except.ok.injEq] at h
      rw [← h]
  refine ⟨hb, fun q => ?_, fun q b => ?_⟩
  · unfold categorize_lead
    rw [hb]
  · unfold categorize_lead
    rw [hb]
    simp

/-- C2 (witness). -/
theorem C2_thresholds_not_configured_witness :
    scorer0.bucket_thresholds = none ∧
    categorize_lead scorer0 50 = .error thresholdsNotConfigured ∧
    categorize_lead scorer0 50 ≠ .ok "cold" :=
  ⟨(C2_thresholds_not_configured {} scorer0 rfl).1,
   (C2_thresholds_not_configured {} scorer0 rfl).2.1 50,
   (C2_thresholds_not_configured {} scorer0 rfl).2.2 50 "cold"⟩

/-! ### C3 -/

/-- C3 (counterexample): a non-string criterion value does raise — the
parser propagates the `TypeError` of `re.split` on the value `42`, so
"never raises an exception" fails on this definition mapping. -/
theorem C3_counterexample :
    parse_icp_definition icpDefBad =
      .error "TypeError: expected string or bytes-like object" := by
  rfl

/-- C3 (amended): on every definition whose present criterion values are
all strings the parser never fails, and a wholly missing input degrades
to empty token lists and null ranges; a non-string criterion value,
however, raises `TypeError`. -/
theorem C3_soft_fail (d : ICPDefinition) (h : allStringVals d = true) :
    (∃ p, parse_icp_definition d = .ok p) ∧
    parse_icp_definition {} = .ok emptyParsed := by
  refine ⟨?_, by rfl⟩
  simp only [allStringVals, Bool.and_eq_true] at h
  obtain ⟨⟨⟨⟨⟨⟨⟨⟨⟨⟨k1, k2⟩, k3⟩, k4⟩, k5⟩, k6⟩, k7⟩, k8⟩, k9⟩, k10⟩, k11⟩ := h
  have ok_of : ∀ v : Option PyVal, strOk v = true → ∃ s, getStr v = .ok s := by
    intro v hv
    cases v with
    | none => exact ⟨[], rfl⟩
    | some w =>
      cases w with
      | pstr s => exact ⟨s, rfl⟩
      | pint n => exact absurd hv (by simp [strOk])
  obtain ⟨t1, e1⟩ := ok_of _ k1
  obtain ⟨t2, e2⟩ := ok_of _ k2
  obtain ⟨t3, e3⟩ := ok_of _ k3
  obtain ⟨t4, e4⟩ := ok_of _ k4
  obtain ⟨t5, e5⟩ := ok_of _ k5
  obtain ⟨t6, e6⟩ := ok_of _ k6
  obtain ⟨t7, e7⟩ := ok_of _ k7
  obtain ⟨t8, e8⟩ := ok_of _ k8
  obtain ⟨t9, e9⟩ := ok_of _ k9
  obtain ⟨t10, e10⟩ := ok_of _ k10
  obtain ⟨t11, e11⟩ := ok_of _ k11
  cases hq : parse_icp_definition d with
  | ok p => exact ⟨p, rfl⟩
  | error e =>
    exfalso
    simp only [parse_icp_definition] at hq
    simp only [e1, e2, e3, e4, e5, e6, e7, e8, e9, e10, e11, ok_bind] at hq
    exact Except.noConfusion hq

/-- C3 (witness for the amended theorem): a definition missing two whole
groups and one criterion still parses. -/
theorem C3_soft_fail_witness :
    allStringVals icpDef6 = true ∧
    (∃ p, parse_icp_definition icpDef6 = .ok p) ∧
    parse_icp_definition {} = .ok emptyParsed :=
  ⟨by decide, (C3_soft_fail icpDef6 (by decide)).1, (C3_soft_fail icpDef6 (by decide)).2⟩

/-! ### C4 -/

/-- C4: `"10-50 employees"` parses to the 10–50 employee range,
`"$1M-$10M revenue"` parses to the 1M–10M revenue range, and a
`company_size` text neither pattern matches parses — without failing —
to null ranges. -/
theorem C4_range_parsing :
    ((parse_icp_definition (ccSizeDef (str "10-50 employees"))).map
        (fun p => p.company_characteristics.employee_count_range)
      = .ok ⟨some 10, some 50⟩) ∧
    ((parse_icp_definition (ccSizeDef (str "$1M-$10M revenue"))).map
        (fun p => p.company_characteristics.revenue_range)
      = .ok ⟨some 1000000, some 10000000⟩) ∧
    (∀ s : Str, searchEmployee s = none → searchRevenue s = none →
      (parse_icp_definition (ccSizeDef s)).map
          (fun p => (p.company_characteristics.employee_count_range,
                     p.company_characteristics.revenue_range))
        = .ok (⟨none, none⟩, ⟨none, none⟩)) := by
  refine ⟨by rfl, by rfl, fun s hE hR => ?_⟩
  rw [parse_ccSizeDef]
  simp only [Except.map, ccSizeParsed, hE, hR]

/-- C4 (witness for the no-match case). -/
theorem C4_range_parsing_witness :
    searchEmployee (str "mid-sized companies") = none ∧
    searchRevenue (str "mid-sized companies") = none ∧
    (parse_icp_definition (ccSizeDef (str "mid-sized companies"))).map
        (fun p => (p.company_characteristics.employee_count_range,
                   p.company_characteristics.revenue_range))
      = .ok (⟨none, none⟩, ⟨none, none⟩) :=
  ⟨rfl, rfl, C4_range_parsing.2.2 (str "mid-sized companies") rfl rfl⟩

/-! ### C5 -/

/-- C5: with configured thresholds the classifier is `hot` at or above
the hot cutoff, else `warm` at or above the warm cutoff, else `cold`;
both comparisons inclusive, and with thresholds hot = 80, warm = 50 the
scores 85, 80, 60, 10 classify as hot, hot, warm, cold. -/
theorem C5_bucket_rules (s : ICPScorer) (th : Thresholds)
    (h : s.bucket_thresholds = some th) (q : ℚ) :
    (q ≥ th.hot → categorize_lead s q = .ok "hot") ∧
    (¬ q ≥ th.hot → q ≥ th.warm → categorize_lead s q = .ok "warm") ∧
    (¬ q ≥ th.hot → ¬ q ≥ th.warm → categorize_lead s q = .ok "cold") ∧
    categorize_lead scorer80 85 = .ok "hot" ∧
    categorize_lead scorer80 80 = .ok "hot" ∧
    categorize_lead scorer80 60 = .ok "warm" ∧
    categorize_lead scorer80 10 = .ok "cold" := by
  refine ⟨?_, ?_, ?_, ?_, ?_, ?_, ?_⟩
  · intro hq
    unfold categorize_lead
    simp only [h]
    rw [if_pos hq]
  · intro hq hw
    unfold categorize_lead
    simp only [h]
    rw [if_neg hq, if_pos hw]
  · intro hq hw
    unfold categorize_lead
    simp only [h]
    rw [if_neg hq, if_neg hw]
  all_goals unfold categorize_lead scorer80
  · norm_num
  · norm_num
  · norm_num
  · norm_num

/-- C5 (witness): the inclusive hot boundary. -/
theorem C5_bucket_rules_witness :
    categorize_lead scorer80 80 = .ok "hot" :=
  (C5_bucket_rules scorer80 ⟨80, 50⟩ rfl 80).1 (le_refl (80 : ℚ))

/-! ### C6 -/

/-- C6: the spec's end-to-end scenario — `icpDef6` parses to `icp6`, the
company-fit sub-score of `lead6` is 25 + 10 + 10 = 45, and its total
score is 45 · 0.4 = 18.0. -/
theorem C6_end_to_end :
    parse_icp_definition icpDef6 = .ok icp6 ∧
    calculate_company_fit icp6 lead6 = 45 ∧
    score_lead icp6 lead6 = 18 := by
  refine ⟨by rfl, by decide, ?_⟩
  rw [score_lead_eq]
  have hc : calculate_company_fit icp6 lead6 = 45 := by decide
  have hp : calculate_persona_fit icp6 lead6 = 0 := by decide
  have hi : calculate_intent_signal_score icp6 lead6 = 0 := by decide
  have ht : calculate_timing_score lead6 = 0 := by decide
  rw [hc, hp, hi, ht]
  norm_num

/-! ### C7 -/

/-- C7: the score is monotone in the lead's matched facts — whenever
every point rule that fires on `lead` also fires on `lead'` (as after
changing one field so that one more rule fires, all others untouched),
the score cannot decrease. -/
theorem C7_monotone (icp : ParsedICP) (lead lead' : LeadRecord)
    (h1 : gIndustry icp lead = true → gIndustry icp lead' = true)
    (h2 : gEmployee icp lead = true → gEmployee icp lead' = true)
    (h3 : gRevenue icp lead = true → gRevenue icp lead' = true)
    (h4 : gGeography icp lead = true → gGeography icp lead' = true)
    (h5 : gTechStack icp lead = true → gTechStack icp lead' = true)
    (h6 : gGrowth icp lead = true → gGrowth icp lead' = true)
    (h7 : gTitle icp lead = true → gTitle icp lead' = true)
    (h8 : gSeniority icp lead = true → gSeniority icp lead' = true)
    (h9 : gDepartment icp lead = true → gDepartment icp lead' = true)
    (h10 : gAuthority icp lead = true → gAuthority icp lead' = true)
    (h11 : gFunding icp lead = true → gFunding icp lead' = true)
    (h12 : gHiring icp lead = true → gHiring icp lead' = true)
    (h13 : gTechChange icp lead = true → gTechChange icp lead' = true)
    (h14 : gCompetitor icp lead = true → gCompetitor icp lead' = true)
    (h15 : gLaunch icp lead = true → gLaunch icp lead' = true)
    (h16 : gFiscal lead = true → gFiscal lead' = true)
    (h17 : gTrigger lead = true → gTrigger lead' = true)
    (h18 : gSeasonal lead = true → gSeasonal lead' = true) :
    score_lead icp lead ≤ score_lead icp lead' := by
  have hc : calculate_company_fit icp lead ≤ calculate_company_fit icp lead' := by
    unfold calculate_company_fit
    exact Nat.add_le_add (Nat.add_le_add (Nat.add_le_add (Nat.add_le_add (Nat.add_le_add
      (ite_le_ite_of_imp h1 25) (ite_le_ite_of_imp h2 10)) (ite_le_ite_of_imp h3 10))
      (ite_le_ite_of_imp h4 15)) (ite_le_ite_of_imp h5 20)) (ite_le_ite_of_imp h6 20)
  have hp : calculate_persona_fit icp lead ≤ calculate_persona_fit icp lead' := by
    unfold calculate_persona_fit
    exact Nat.add_le_add (Nat.add_le_add (Nat.add_le_add
      (ite_le_ite_of_imp h7 30) (ite_le_ite_of_imp h8 25)) (ite_le_ite_of_imp h9 25))
      (ite_le_ite_of_imp h10 20)
  have hi : calculate_intent_signal_score icp lead ≤ calculate_intent_signal_score icp lead' := by
    unfold calculate_intent_signal_score
    exact Nat.add_le_add (Nat.add_le_add (Nat.add_le_add (Nat.add_le_add
      (ite_le_ite_of_imp h11 30) (ite_le_ite_of_imp h12 25)) (ite_le_ite_of_imp h13 20))
      (ite_le_ite_of_imp h14 15)) (ite_le_ite_of_imp h15 10)
  have ht : calculate_timing_score lead ≤ calculate_timing_score lead' := by
    unfold calculate_timing_score
    exact Nat.add_le_add (Nat.add_le_add
      (ite_le_ite_of_imp h16 30) (ite_le_ite_of_imp h17 40)) (ite_le_ite_of_imp h18 30)
  rw [score_lead_eq, score_lead_eq]
  have hsum : 4 * min 100 (calculate_company_fit icp lead)
      + 3 * min 100 (calculate_persona_fit icp lead)
      + 2 * min 100 (calculate_intent_signal_score icp lead)
      + min 100 (calculate_timing_score lead)
      ≤ 4 * min 100 (calculate_company_fit icp lead')
      + 3 * min 100 (calculate_persona_fit icp lead')
      + 2 * min 100 (calculate_intent_signal_score icp lead')
      + min 100 (calculate_timing_score lead') := by
    have m4 : ∀ {a b : ℕ}, a ≤ b → min 100 a ≤ min 100 b :=
      fun hab => min_le_min (le_refl 100) hab
    exact Nat.add_le_add (Nat.add_le_add (Nat.add_le_add
      (Nat.mul_le_mul_left 4 (m4 hc)) (Nat.mul_le_mul_left 3 (m4 hp)))
      (Nat.mul_le_mul_left 2 (m4 hi))) (m4 ht)
  have hq : ((4 * min 100 (calculate_company_fit icp lead)
      + 3 * min 100 (calculate_persona_fit icp lead)
      + 2 * min 100 (calculate_intent_signal_score icp lead)
      + min 100 (calculate_timing_score lead) : ℕ) : ℚ)
      ≤ ((4 * min 100 (calculate_company_fit icp lead')
      + 3 * min 100 (calculate_persona_fit icp lead')
      + 2 * min 100 (calculate_intent_signal_score icp lead')
      + min 100 (calculate_timing_score lead') : ℕ) : ℚ) := by
    exact_mod_cast hsum
  linarith

/-- C7 (witness): adding one timing fact to an empty lead does not
decrease the score. -/
theorem C7_monotone_witness :
    score_lead icpFull leadNone ≤
      score_lead icpFull { leadNone with timing := { recent_trigger_events := true } } :=
  C7_monotone icpFull leadNone _
    (by decide) (by decide) (by decide) (by decide) (by decide) (by decide)
    (by decide) (by decide) (by decide) (by decide) (by decide) (by decide)
    (by decide) (by decide) (by decide) (by decide) (by decide) (by decide)

/-! ### C8 -/

/-- The company-characteristics truthiness test of `validate_icp` is
always satisfied: the two range values are non-empty dictionaries. -/
theorem ccAny_true (cc : ParsedCC) : ccAny cc = true := by
  simp [ccAny, truthyBounds]

/-- `any` over the parsed persona values fails exactly on the empty group. -/
theorem bpAny_false_iff (bp : ParsedBP) : bpAny bp = false ↔ bpEmptyP bp := by
  simp [bpAny, bpEmptyP, and_assoc]

/-- `any` over the parsed signal values fails exactly on the empty group. -/
theorem esAny_false_iff (es : ParsedES) : esAny es = false ↔ esEmptyP es := by
  simp [esAny, esEmptyP]

/-- Every branch of `validate_icp` carries a non-empty message. -/
theorem validate_message_ne (p : ParsedICP) : (validate_icp p).message ≠ "" := by
  unfold validate_icp
  split_ifs <;> decide

/-- C8: an ICP whose three parsed groups are entirely empty validates as
invalid with a message; in general a parse result is invalid exactly when
some group is entirely empty or the industry or decision-maker token list
is empty. -/
theorem C8_validate_icp (d : ICPDefinition) (p : ParsedICP)
    (_hd : parse_icp_definition d = .ok p) :
    ((ccEmptyP p.company_characteristics ∧ bpEmptyP p.buyer_persona ∧
        esEmptyP p.engagement_signals) →
      (validate_icp p).is_valid = false ∧ (validate_icp p).message ≠ "") ∧
    ((validate_icp p).is_valid = false ↔
      (ccEmptyP p.company_characteristics ∨ bpEmptyP p.buyer_persona ∨
       esEmptyP p.engagement_signals ∨
       p.company_characteristics.industry_vertical = [] ∨
       p.buyer_persona.decision_maker_profile = [])) := by
  have hval : (validate_icp p).is_valid = false ↔
      (bpAny p.buyer_persona = false ∨ esAny p.engagement_signals = false ∨
       p.company_characteristics.industry_vertical = [] ∨
       p.buyer_persona.decision_maker_profile = []) := by
    unfold validate_icp
    split_ifs with w1 w2 w3 w4 w5 <;> simp_all [ccAny_true]
  have hbp := bpAny_false_iff p.buyer_persona
  have hes := esAny_false_iff p.engagement_signals
  refine ⟨fun ⟨hcc, hb, he⟩ => ⟨hval.mpr (Or.inl (hbp.mpr hb)), validate_message_ne p⟩, ?_⟩
  rw [hval]
  constructor
  · rintro (h | h | h | h)
    · exact Or.inr (Or.inl (hbp.mp h))
    · exact Or.inr (Or.inr (Or.inl (hes.mp h)))
    · exact Or.inr (Or.inr (Or.inr (Or.inl h)))
    · exact Or.inr (Or.inr (Or.inr (Or.inr h)))
  · rintro (h | h | h | h | h)
    · exact Or.inr (Or.inr (Or.inl h.1))
    · exact Or.inl (hbp.mpr h)
    · exact Or.inr (Or.inl (hes.mpr h))
    · exact Or.inr (Or.inr (Or.inl h))
    · exact Or.inr (Or.inr (Or.inr h))

/-- C8 (witness): the empty definition parses to three empty groups and
fails validation with a message. -/
theorem C8_validate_icp_witness :
    (validate_icp emptyParsed).is_valid = false ∧
    (validate_icp emptyParsed).message ≠ "" :=
  (C8_validate_icp {} emptyParsed rfl).1
    ⟨⟨rfl, rfl, rfl, rfl, rfl, rfl, rfl⟩, ⟨rfl, rfl, rfl⟩, ⟨rfl, rfl⟩⟩

/-! ### C9 -/

/-- C9: the revenue multiplier comes from one case-sensitive `'M'` / `'K'`
membership test on the whole matched text and scales both bounds, so
`"$500K-$2M revenue"` parses to min 500000000 (not 500000), while an
all-lowercase `"$1m-$10m revenue"` — accepted by the case-insensitive
pattern — is scaled by 1. -/
theorem C9_revenue_multiplier :
    (∀ (s g0 : Str) (g1 : Nat) (g2 : Option Nat),
      searchRevenue s = some (g0, g1, g2) → g0.contains 'M' = true →
      (parse_icp_definition (ccSizeDef s)).map
          (fun p => p.company_characteristics.revenue_range)
        = .ok ⟨some ((g1 : Int) * 10 ^ 6), g2.map (fun n => (n : Int) * 10 ^ 6)⟩) ∧
    ((parse_icp_definition (ccSizeDef (str "$500K-$2M revenue"))).map
        (fun p => p.company_characteristics.revenue_range)
      = .ok ⟨some 500000000, some 2000000⟩) ∧
    ((parse_icp_definition (ccSizeDef (str "$1m-$10m revenue"))).map
        (fun p => p.company_characteristics.revenue_range)
      = .ok ⟨some 1, some 10⟩) := by
  refine ⟨fun s g0 g1 g2 hs hM => ?_, by rfl, by rfl⟩
  rw [parse_ccSizeDef]
  simp only [Except.map, ccSizeParsed, hs, revMultiplier, hM, if_true]
  cases g2 <;> simp

/-- C9 (witness): instantiating the multiplier rule on
`"$500K-$2M revenue"`. -/
theorem C9_revenue_multiplier_witness :
    (parse_icp_definition (ccSizeDef (str "$500K-$2M revenue"))).map
        (fun p => p.company_characteristics.revenue_range)
      = .ok ⟨some ((500 : Nat) * 10 ^ 6), (some 2).map (fun n => (n : Int) * 10 ^ 6)⟩ :=
  C9_revenue_multiplier.1 (str "$500K-$2M revenue") (str "$500K-$2M revenue")
    500 (some 2) rfl rfl

/-! ### C10 -/

/-- C10: a zero employee count (or revenue estimate) is falsy, so the
size-range points are skipped even when the parsed range contains 0; the
points fire exactly when the value is present and non-zero, both parsed
bounds are non-null, and the value lies inside them. -/
theorem C10_zero_is_skipped (icp : ParsedICP) (lead : LeadRecord) :
    (lead.company.employee_count = some 0 → gEmployee icp lead = false) ∧
    (lead.company.revenue_estimate = some 0 → gRevenue icp lead = false) ∧
    (gEmployee icp lead = true ↔
      ∃ v lo hi, lead.company.employee_count = some v ∧ v ≠ 0 ∧
        icp.company_characteristics.employee_count_range.min = some lo ∧
        icp.company_characteristics.employee_count_range.max = some hi ∧
        lo ≤ v ∧ v ≤ hi) ∧
    (gRevenue icp lead = true ↔
      ∃ v lo hi, lead.company.revenue_estimate = some v ∧ v ≠ 0 ∧
        icp.company_characteristics.revenue_range.min = some lo ∧
        icp.company_characteristics.revenue_range.max = some hi ∧
        lo ≤ v ∧ v ≤ hi) := by
  refine ⟨?_, ?_, ?_, ?_⟩
  · intro h
    unfold gEmployee
    rw [h]
    rcases icp.company_characteristics.employee_count_range.min with _ | lo <;>
      rcases icp.company_characteristics.employee_count_range.max with _ | hi <;> simp
  · intro h
    unfold gRevenue
    rw [h]
    rcases icp.company_characteristics.revenue_range.min with _ | lo <;>
      rcases icp.company_characteristics.revenue_range.max with _ | hi <;> simp
  · unfold gEmployee
    rcases he : lead.company.employee_count with _ | v <;>
      rcases hm : icp.company_characteristics.employee_count_range.min with _ | lo <;>
        rcases hM : icp.company_characteristics.employee_count_range.max with _ | hi <;>
          simp [he, hm, hM, and_assoc]
  · unfold gRevenue
    rcases he : lead.company.revenue_estimate with _ | v <;>
      rcases hm : icp.company_characteristics.revenue_range.min with _ | lo <;>
        rcases hM : icp.company_characteristics.revenue_range.max with _ | hi <;>
          simp [he, hm, hM, and_assoc]

/-- C10 (witness): a zero count and a zero estimate earn no range points
even though both parsed ranges contain 0. -/
theorem C10_zero_is_skipped_witness :
    gEmployee icpZero leadZero = false ∧ gRevenue icpZero leadZero = false :=
  ⟨(C10_zero_is_skipped icpZero leadZero).1 rfl,
   (C10_zero_is_skipped icpZero leadZero).2.1 rfl⟩

end ICPScoring
